import Mathlib

/-!
Verification of the Smart-Home IoT Simulator core
(`devices/smart_devices.py`, `utils/automation.py`).

Shallow embedding conventions:
* Python objects become Lean structures; the common `SmartDevice` base-class
  fields (`device_id`, `status`, `room`, `color`) are flattened into each
  variant structure.  The constant per-class colour dictionaries
  (`status_color`, `lock_color`, `motion_color`, `light_colors`,
  `temp_colors`) are class-level constant tables and are inlined where read.
* In-place mutating methods become functions `State → State`; methods that
  also return a value become `State → Result × State` (or the tuple shape
  stated at the definition).
* Python floats (`time.time()`, thermostat temperature, window light level)
  are modelled as rationals `ℚ`; Python ints as `ℤ`.  The only arithmetic
  the claims touch is addition of halves, comparison, and products of small
  integers divided by 100, all exact.
* The device registry is a `List Device` over a sum of the six variants;
  `isinstance` tests become pattern matches.
-/

/-- Flattened `SmartLight` (base fields plus `brightness`, `color_temp`). -/
structure SmartLight where
  device_id : String
  status : Bool
  room : String
  color : String
  brightness : ℤ
  color_temp : ℤ
deriving DecidableEq, Repr

/-- Flattened `Thermostat` (base fields plus temperature state). -/
structure Thermostat where
  device_id : String
  status : Bool
  room : String
  color : String
  temperature : ℚ
  target_temp : ℚ
  mode : String
  humidity : ℤ
deriving DecidableEq, Repr

/-- Flattened `SecurityCamera`. -/
structure SecurityCamera where
  device_id : String
  status : Bool
  room : String
  color : String
  motion_detected : Bool
  recording : Bool
  battery_level : ℤ
deriving DecidableEq, Repr

/-- Flattened `SmartDoor`. -/
structure SmartDoor where
  device_id : String
  status : Bool
  room : String
  color : String
  locked : Bool
  door_open : Bool
deriving DecidableEq, Repr

/-- Flattened `SmartWindow`. -/
structure SmartWindow where
  device_id : String
  status : Bool
  room : String
  color : String
  open_percentage : ℤ
  blinds_percentage : ℤ
  light_level : ℚ
deriving DecidableEq, Repr

/-- Flattened `SmartFan`. -/
structure SmartFan where
  device_id : String
  status : Bool
  room : String
  color : String
  speed : ℤ
  oscillating : Bool
  timer : ℤ
deriving DecidableEq, Repr

/-- A registry entry: one of the six device variants
(`isinstance` dispatch becomes a pattern match on this sum). -/
inductive Device where
  | light : SmartLight → Device
  | thermostat : Thermostat → Device
  | camera : SecurityCamera → Device
  | door : SmartDoor → Device
  | window : SmartWindow → Device
  | fan : SmartFan → Device
deriving DecidableEq, Repr

/-- `SmartLight.set_brightness`: stores the argument unchanged (no clamp in
the source), then sets `status` from the stored value: `True` if `> 0`,
`False` if `== 0`; a negative value hits neither branch and leaves `status`
as it was. -/
def SmartLight.set_brightness (l : SmartLight) (brightness : ℤ) : SmartLight :=
  let l2 : SmartLight := { l with brightness := brightness }
  if l2.brightness > 0 then { l2 with status := true }
  else if l2.brightness = 0 then { l2 with status := false }
  else l2

/-- `SmartLight.get_details`. -/
def SmartLight.get_details (l : SmartLight) : String :=
  if !l.status then l.device_id ++ " (" ++ l.room ++ "): OFF"
  else l.device_id ++ " (" ++ l.room ++ "): " ++ toString l.brightness ++ "% - "
        ++ toString l.color_temp ++ "K"

/-- `Thermostat.set_temperature`: sets the target and forces `status := True`. -/
def Thermostat.set_temperature (t : Thermostat) (temperature : ℚ) : Thermostat :=
  { t with target_temp := temperature, status := true }

/-- `Thermostat.update_temp_color`: recomputes `color` from the five fixed
temperature bands (`temp_colors` dictionary inlined). -/
def Thermostat.update_temp_color (t : Thermostat) : Thermostat :=
  if t.temperature < 16 then { t with color := "#81D4FA" }
  else if t.temperature < 19 then { t with color := "#B3E5FC" }
  else if t.temperature < 23 then { t with color := "#E1F5FE" }
  else if t.temperature < 26 then { t with color := "#FFE0B2" }
  else { t with color := "#FFCCBC" }

/-- `Thermostat.update_current_temp`: one simulation step toward the target
(`+0.5` if below, `-0.5` if above, unchanged at the target), then the colour
update. -/
def Thermostat.update_current_temp (t : Thermostat) : Thermostat :=
  let t2 : Thermostat :=
    if t.temperature < t.target_temp then { t with temperature := t.temperature + 1/2 }
    else if t.temperature > t.target_temp then { t with temperature := t.temperature - 1/2 }
    else t
  t2.update_temp_color

/-- `Thermostat.get_details` (the rational temperature is rendered with
`toString`; only the OFF branch is compared literally). -/
def Thermostat.get_details (t : Thermostat) : String :=
  if !t.status then t.device_id ++ " (" ++ t.room ++ "): OFF"
  else t.device_id ++ " (" ++ t.room ++ "): " ++ toString t.temperature
        ++ "°C - Mode: " ++ t.mode

/-- `SecurityCamera.get_details`. -/
def SecurityCamera.get_details (c : SecurityCamera) : String :=
  if !c.status then c.device_id ++ " (" ++ c.room ++ "): OFF"
  else
    let motion_status := if c.motion_detected then "Motion Detected!" else "No Motion"
    let recording_status := if c.recording then "Recording" else "Standby"
    c.device_id ++ " (" ++ c.room ++ "): " ++ motion_status ++ " - "
      ++ recording_status ++ " - Battery: " ++ toString c.battery_level ++ "%"

/-- `SmartDoor.toggle_lock`. -/
def SmartDoor.toggle_lock (d : SmartDoor) : Bool × SmartDoor :=
  let d2 : SmartDoor := { d with locked := !d.locked }
  (d2.locked, d2)

/-- `SmartDoor.open_door`: opens and returns `True` only when unlocked;
when locked, returns `False` and changes nothing. -/
def SmartDoor.open_door (d : SmartDoor) : Bool × SmartDoor :=
  if !d.locked then (true, { d with door_open := true })
  else (false, d)

/-- `SmartDoor.close_door`. -/
def SmartDoor.close_door (d : SmartDoor) : Bool × SmartDoor :=
  (true, { d with door_open := false })

/-- `SmartDoor.get_details`. -/
def SmartDoor.get_details (d : SmartDoor) : String :=
  if !d.status then d.device_id ++ " (" ++ d.room ++ "): OFF"
  else
    let lock_status := if d.locked then "Locked" else "Unlocked"
    let door_status := if d.door_open then "Open" else "Closed"
    d.device_id ++ " (" ++ d.room ++ "): " ++ door_status ++ " - " ++ lock_status

/-- `SmartWindow.calculate_light_level`: `light_level` from the current
stored percentages. -/
def SmartWindow.calculate_light_level (w : SmartWindow) : SmartWindow :=
  { w with light_level :=
      ((w.open_percentage : ℚ) * (100 - (w.blinds_percentage : ℚ))) / 100 }

/-- `SmartWindow.set_open_percentage`: clamps to [0,100] and sets `status`
from the clamped value; it does NOT recompute `light_level`. -/
def SmartWindow.set_open_percentage (w : SmartWindow) (percentage : ℤ) : SmartWindow :=
  let w2 : SmartWindow := { w with open_percentage := max 0 (min 100 percentage) }
  if w2.open_percentage > 0 then { w2 with status := true }
  else { w2 with status := false }

/-- `SmartWindow.set_blinds_percentage`: clamps to [0,100] and then calls
`calculate_light_level`. -/
def SmartWindow.set_blinds_percentage (w : SmartWindow) (percentage : ℤ) : SmartWindow :=
  ({ w with blinds_percentage := max 0 (min 100 percentage) }).calculate_light_level

/-- `SmartWindow.get_details` — note the off branch says `CLOSED`. -/
def SmartWindow.get_details (w : SmartWindow) : String :=
  if !w.status then w.device_id ++ " (" ++ w.room ++ "): CLOSED"
  else w.device_id ++ " (" ++ w.room ++ "): " ++ toString w.open_percentage
        ++ "% Open - Blinds: " ++ toString w.blinds_percentage ++ "% - Light: "
        ++ toString w.light_level ++ "%"

/-- `SmartFan.set_speed`: clamps to [0,3] and sets `status` from the clamped
value. -/
def SmartFan.set_speed (f : SmartFan) (speed : ℤ) : SmartFan :=
  let f2 : SmartFan := { f with speed := max 0 (min 3 speed) }
  if f2.speed > 0 then { f2 with status := true }
  else { f2 with status := false }

/-- `SmartFan.get_details` (speed label table inlined; the guard keeps the
lookup inside {1,2,3} for clamped speeds). -/
def SmartFan.get_details (f : SmartFan) : String :=
  if !f.status || f.speed = 0 then f.device_id ++ " (" ++ f.room ++ "): OFF"
  else
    let speed_label := if f.speed = 1 then "Low" else if f.speed = 2 then "Medium" else "High"
    let osc_status := if f.oscillating then "Oscillating" else "Fixed"
    let timer_status := if f.timer > 0 then "Timer: " ++ toString f.timer ++ "min" else "No Timer"
    f.device_id ++ " (" ++ f.room ++ "): " ++ speed_label ++ " - " ++ osc_status
      ++ " - " ++ timer_status

/-!  `utils/automation.py` — rule engine.  `time.time()` is modelled by
passing the current time `now : ℚ` to the operations that read the clock. -/

/-- `AutomationRule`: a named, toggleable condition/action pair with
trigger bookkeeping.  Conditions are pure predicates over the registry;
actions produce the mutated registry. -/
structure AutomationRule where
  name : String
  condition : List Device → Bool
  action : List Device → List Device
  enabled : Bool
  last_triggered : Option ℚ

/-- `AutomationRule.apply`: returns the boolean result together with the
updated rule (`last_triggered`) and the updated registry. -/
def AutomationRule.apply (r : AutomationRule) (devices : List Device) (now : ℚ) :
    Bool × AutomationRule × List Device :=
  if !r.enabled then (false, r, devices)
  else if r.condition devices then
    (true, { r with last_triggered := some now }, r.action devices)
  else (false, r, devices)

/-- `AutomationRule.toggle`. -/
def AutomationRule.toggle (r : AutomationRule) : Bool × AutomationRule :=
  let r2 : AutomationRule := { r with enabled := !r.enabled }
  (r2.enabled, r2)

/-- `AutomationSystem` (the `motion_timer` UI-callback handle is
presentation bookkeeping and not modelled). -/
structure AutomationSystem where
  devices : List Device
  rules : List AutomationRule
  enabled : Bool
  last_execution : ℚ

/-- The loop body of `AutomationSystem.execute_rules`: walk the rule list
in order, and for each rule with `rule.enabled` call `rule.apply` on the
current registry (mirroring the `if rule.enabled` guard in the source);
threads the registry through and rebuilds the rule list in place. -/
def execRulesLoop : List AutomationRule → List Device → ℚ →
    List AutomationRule × List Device
  | [], devices, _ => ([], devices)
  | r :: rs, devices, now =>
      if r.enabled then
        let res := r.apply devices now
        let rest := execRulesLoop rs res.2.2 now
        (res.2.1 :: rest.1, rest.2)
      else
        let rest := execRulesLoop rs devices now
        (r :: rest.1, rest.2)

/-- `AutomationSystem.execute_rules`: no-op when disabled, otherwise
records `last_execution := now` and runs the rule loop. -/
def AutomationSystem.execute_rules (s : AutomationSystem) (now : ℚ) : AutomationSystem :=
  if !s.enabled then s
  else
    let res := execRulesLoop s.rules s.devices now
    { s with last_execution := now, rules := res.1, devices := res.2 }

/-- `AutomationSystem.toggle`. -/
def AutomationSystem.toggle (s : AutomationSystem) : Bool × AutomationSystem :=
  let s2 : AutomationSystem := { s with enabled := !s.enabled }
  (s2.enabled, s2)

/-- The filter in `create_security_rule.condition` /
`create_energy_saving_rule.condition`:
`[d for d in devices if isinstance(d, SecurityCamera) and d.status]`. -/
def enabledCameras (devices : List Device) : List SecurityCamera :=
  devices.filterMap fun d =>
    match d with
    | Device.camera c => if c.status then some c else none
    | _ => none

/-- `create_security_rule.condition`: `False` when no enabled camera
exists, else `True` exactly when no enabled camera reports motion. -/
def securityCondition (devices : List Device) : Bool :=
  let cameras := enabledCameras devices
  if cameras.isEmpty then false
  else cameras.all fun camera => !camera.motion_detected

/-- `create_security_rule.action`: lock every door whose `status` is on. -/
def securityAction (devices : List Device) : List Device :=
  devices.map fun d =>
    match d with
    | Device.door dr => if dr.status then Device.door { dr with locked := true } else Device.door dr
    | other => other

/-- `create_security_rule` ("Auto Lock"). -/
def create_security_rule : AutomationRule :=
  { name := "Auto Lock", condition := securityCondition, action := securityAction,
    enabled := true, last_triggered := none }

/-- `create_energy_saving_rule.condition` (textual duplicate of
`securityCondition`, kept as its own definition as in the source). -/
def energySavingCondition (devices : List Device) : Bool :=
  let cameras := enabledCameras devices
  let no_motion := cameras.all fun camera => !camera.motion_detected
  if cameras.isEmpty then false
  else no_motion

/-- `create_energy_saving_rule.action`: zero the brightness of every
enabled light and the speed of every enabled fan. -/
def energySavingAction (devices : List Device) : List Device :=
  devices.map fun d =>
    match d with
    | Device.light l => if l.status then Device.light (l.set_brightness 0) else Device.light l
    | Device.fan f => if f.status then Device.fan (f.set_speed 0) else Device.fan f
    | other => other

/-- `create_energy_saving_rule` ("Energy Saving"). -/
def create_energy_saving_rule : AutomationRule :=
  { name := "Energy Saving", condition := energySavingCondition,
    action := energySavingAction, enabled := true, last_triggered := none }

/-!  Theorems.  Concrete fixture devices used by witnesses and
counterexamples are declared next to the claims that use them. -/

/-- C10: `set_temperature(t)` sets `target_temp` to `t` and unconditionally
sets the on flag to `true` — even when the thermostat was off — while
leaving the current temperature, mode, humidity, colour, identity and room
unchanged. -/
theorem set_temperature_frame (t : Thermostat) (temp : ℚ) :
    (t.set_temperature temp).target_temp = temp ∧
    (t.set_temperature temp).status = true ∧
    (t.set_temperature temp).temperature = t.temperature ∧
    (t.set_temperature temp).mode = t.mode ∧
    (t.set_temperature temp).humidity = t.humidity ∧
    (t.set_temperature temp).color = t.color ∧
    (t.set_temperature temp).device_id = t.device_id ∧
    (t.set_temperature temp).room = t.room := by
  simp [Thermostat.set_temperature]

/-- C3: `open_door()` returns `true` and sets the open flag exactly when
`locked` is false at the call; when `locked` is true it returns `false`
and leaves the whole door state unchanged (refusal is signalled by the
boolean result, no exception is modelled or needed). -/
theorem open_door_spec (d : SmartDoor) :
    ((d.open_door.1 = true ∧ d.open_door.2.door_open = true) ↔ d.locked = false) ∧
    (d.locked = false → d.open_door = (true, { d with door_open := true })) ∧
    (d.locked = true → d.open_door = (false, d)) := by
  cases h : d.locked <;> simp [SmartDoor.open_door, h]

def c3Door : SmartDoor :=
  { device_id := "door3", status := true, room := "Front Door", color := "#cccccc",
    locked := false, door_open := false }

theorem open_door_spec_witness :
    c3Door.locked = false ∧ c3Door.open_door = (true, { c3Door with door_open := true }) :=
  ⟨rfl, (open_door_spec c3Door).2.1 rfl⟩

def c4Light : SmartLight :=
  { device_id := "light4", status := true, room := "Living Room", color := "#FFECB3",
    brightness := 60, color_temp := 4000 }

/-- C4 counterexample: `set_brightness(-5)` on a light that is on stores
`-5`, not `clamp(-5, 0, 100) = 0`, and leaves the on flag `true` although
the stored brightness is not positive — both halves of the claim fail. -/
theorem set_brightness_counterexample :
    ¬ ((c4Light.set_brightness (-5)).brightness = max 0 (min 100 (-5 : ℤ)) ∧
       (c4Light.set_brightness (-5)).status =
         decide ((c4Light.set_brightness (-5)).brightness > 0)) := by
  decide

/-- C4 (amended): `set_brightness(b)` stores `b` unchanged (the source does
not clamp), and sets the on flag to `true` when `b > 0`, to `false` when
`b = 0`, and leaves it unchanged when `b < 0`. -/
theorem set_brightness_spec (l : SmartLight) (b : ℤ) :
    (l.set_brightness b).brightness = b ∧
    (l.set_brightness b).status =
      (if b > 0 then true else if b = 0 then false else l.status) := by
  unfold SmartLight.set_brightness
  split_ifs with h1 h2 <;> simp [*]

/-- C2: `apply(devices)` returns `false` with the rule and registry
untouched when the rule is disabled or its condition fails; when enabled
with a true condition it runs the action, stamps `last_triggered := now`
and returns `true`; and if after firing the condition no longer holds on
the post-action registry, a second `apply` there returns `false` and
mutates nothing. -/
theorem apply_spec (r : AutomationRule) (d : List Device) (now now2 : ℚ) :
    (r.enabled = false → r.apply d now = (false, r, d)) ∧
    (r.enabled = true → r.condition d = false → r.apply d now = (false, r, d)) ∧
    (r.enabled = true → r.condition d = true →
      r.apply d now = (true, { r with last_triggered := some now }, r.action d)) ∧
    (r.enabled = true → r.condition d = true → r.condition (r.action d) = false →
      (r.apply d now).2.1.apply (r.apply d now).2.2 now2
        = (false, (r.apply d now).2.1, (r.apply d now).2.2)) := by
  refine ⟨?_, ?_, ?_, ?_⟩ <;> intro he
  · simp [AutomationRule.apply, he]
  · intro hc; simp [AutomationRule.apply, he, hc]
  · intro hc; simp [AutomationRule.apply, he, hc]
  · intro hc hc2
    simp [AutomationRule.apply, he, hc, hc2]

def c2Door : SmartDoor :=
  { device_id := "door2", status := true, room := "Front Door", color := "#cccccc",
    locked := true, door_open := false }

def c2Devs : List Device := [Device.door c2Door]

def c2Rule : AutomationRule :=
  { name := "Demo", condition := fun ds => !ds.isEmpty, action := fun _ => [],
    enabled := true, last_triggered := none }

theorem apply_spec_witness :
    c2Rule.enabled = true ∧ c2Rule.condition c2Devs = true ∧
    c2Rule.condition (c2Rule.action c2Devs) = false ∧
    (c2Rule.apply c2Devs 3).2.1.apply (c2Rule.apply c2Devs 3).2.2 4
      = (false, (c2Rule.apply c2Devs 3).2.1, (c2Rule.apply c2Devs 3).2.2) :=
  ⟨rfl, rfl, rfl, (apply_spec c2Rule c2Devs 3 4).2.2.2 rfl rfl rfl⟩

/-- The unconditional rule pass: every rule in the list is applied in
order via `AutomationRule.apply`, each one regardless of what any earlier
rule returned (the boolean outcome is discarded, only the threaded
registry and updated rules are kept). -/
def applyAllRules : List AutomationRule → List Device → ℚ →
    List AutomationRule × List Device
  | [], devices, _ => ([], devices)
  | r :: rs, devices, now =>
      let res := r.apply devices now
      let rest := applyAllRules rs res.2.2 now
      (res.2.1 :: rest.1, rest.2)

lemma apply_of_disabled (r : AutomationRule) (d : List Device) (now : ℚ)
    (h : r.enabled = false) : r.apply d now = (false, r, d) := by
  simp [AutomationRule.apply, h]

lemma execRulesLoop_eq_applyAllRules (rs : List AutomationRule)
    (d : List Device) (now : ℚ) :
    execRulesLoop rs d now = applyAllRules rs d now := by
  induction rs generalizing d with
  | nil => rfl
  | cons r rs ih =>
      cases h : r.enabled
      · simp [execRulesLoop, applyAllRules, h, apply_of_disabled r d now h, ih]
      · simp [execRulesLoop, applyAllRules, h, ih]

/-- C1: with `enabled = false`, `execute_rules` leaves the whole system —
in particular every device and `last_execution` — unchanged; with
`enabled = true` it sets `last_execution := now` and the resulting rules
and registry are those of the unconditional in-order pass
`applyAllRules`, so every rule is applied via `apply` in insertion order
irrespective of whether earlier rules in the same pass fired. -/
theorem execute_rules_spec (s : AutomationSystem) (now : ℚ) :
    (s.enabled = false → s.execute_rules now = s) ∧
    (s.enabled = true →
      s.execute_rules now =
        { devices := (applyAllRules s.rules s.devices now).2,
          rules := (applyAllRules s.rules s.devices now).1,
          enabled := true,
          last_execution := now }) := by
  cases h : s.enabled
  · simp [AutomationSystem.execute_rules, h]
  · simp [AutomationSystem.execute_rules, h, execRulesLoop_eq_applyAllRules]

def c1Cam : SecurityCamera :=
  { device_id := "cam1", status := true, room := "Front Door", color := "#cccccc",
    motion_detected := false, recording := false, battery_level := 100 }

def c1Door : SmartDoor :=
  { device_id := "door1", status := true, room := "Front Door", color := "#cccccc",
    locked := false, door_open := false }

def c1System : AutomationSystem :=
  { devices := [Device.camera c1Cam, Device.door c1Door],
    rules := [create_security_rule], enabled := true, last_execution := 0 }

theorem execute_rules_spec_witness :
    c1System.enabled = true ∧
    c1System.execute_rules 7 =
      { devices := (applyAllRules c1System.rules c1System.devices 7).2,
        rules := (applyAllRules c1System.rules c1System.devices 7).1,
        enabled := true,
        last_execution := 7 } :=
  ⟨rfl, (execute_rules_spec c1System 7).2 rfl⟩

def c5Therm : Thermostat :=
  { device_id := "thermo5", status := true, room := "Living Room", color := "#E1F5FE",
    temperature := 20, target_temp := 203/10, mode := "heat", humidity := 50 }

lemma update_temp_color_temperature (t : Thermostat) :
    (t.update_temp_color).temperature = t.temperature := by
  unfold Thermostat.update_temp_color
  split_ifs <;> rfl

lemma update_temp_color_target (t : Thermostat) :
    (t.update_temp_color).target_temp = t.target_temp := by
  unfold Thermostat.update_temp_color
  split_ifs <;> rfl

lemma update_current_temp_temperature (t : Thermostat) :
    (t.update_current_temp).temperature =
      if t.temperature < t.target_temp then t.temperature + 1/2
      else if t.target_temp < t.temperature then t.temperature - 1/2
      else t.temperature := by
  unfold Thermostat.update_current_temp
  split_ifs <;> simp_all [update_temp_color_temperature]

lemma update_current_temp_target (t : Thermostat) :
    (t.update_current_temp).target_temp = t.target_temp := by
  unfold Thermostat.update_current_temp
  split_ifs <;> simp_all [update_temp_color_target]

lemma update_current_temp_iter_fixed (t : Thermostat)
    (h : t.temperature = t.target_temp) (n : ℕ) :
    (Thermostat.update_current_temp^[n] t).temperature = t.temperature := by
  induction n generalizing t with
  | zero => simp
  | succ n ih =>
      rw [Function.iterate_succ_apply]
      have h1 : (t.update_current_temp).temperature = t.temperature := by
        rw [update_current_temp_temperature, h]
        simp
      have h2 : (t.update_current_temp).target_temp = t.target_temp :=
        update_current_temp_target t
      rw [ih t.update_current_temp (by rw [h1, h2, h]), h1]

/-- C5 counterexample: with current temperature 20 and target 20.3, one
`update_current_temp` step yields 20.5 — strictly past the target, so the
step is a fixed ±0.5 increment, not clamped stepping. -/
theorem update_current_temp_counterexample :
    c5Therm.temperature < c5Therm.target_temp ∧
    c5Therm.target_temp < (c5Therm.update_current_temp).temperature := by
  constructor
  · norm_num [c5Therm]
  · rw [update_current_temp_temperature]
    norm_num [c5Therm]

def c5Conv : Thermostat :=
  { device_id := "thermo5b", status := true, room := "Living Room", color := "#E1F5FE",
    temperature := 20, target_temp := 22, mode := "heat", humidity := 50 }

lemma c5Conv_step_temperature : (c5Conv.update_current_temp).temperature = 41/2 := by
  rw [update_current_temp_temperature]
  norm_num [c5Conv]

lemma c5Conv_iter4 :
    (Thermostat.update_current_temp^[4] c5Conv).temperature = 22 ∧
    (Thermostat.update_current_temp^[4] c5Conv).target_temp = 22 := by
  have e4 : Thermostat.update_current_temp^[4] c5Conv =
      (((c5Conv.update_current_temp).update_current_temp).update_current_temp).update_current_temp :=
    rfl
  have g1 : (c5Conv.update_current_temp).target_temp = 22 := by
    rw [update_current_temp_target]
    norm_num [c5Conv]
  have h2 : ((c5Conv.update_current_temp).update_current_temp).temperature = 21 := by
    rw [update_current_temp_temperature, c5Conv_step_temperature, g1]
    norm_num
  have g2 : ((c5Conv.update_current_temp).update_current_temp).target_temp = 22 := by
    rw [update_current_temp_target, g1]
  have h3 : (((c5Conv.update_current_temp).update_current_temp).update_current_temp).temperature
      = 43/2 := by
    rw [update_current_temp_temperature, h2, g2]
    norm_num
  have g3 : (((c5Conv.update_current_temp).update_current_temp).update_current_temp).target_temp
      = 22 := by
    rw [update_current_temp_target, g2]
  constructor
  · rw [e4, update_current_temp_temperature, h3, g3]
    norm_num
  · rw [e4, update_current_temp_target, g3]

/-- C5 (amended): one `update_current_temp` step moves the current
temperature by exactly 0.5 toward the target when they differ and leaves
it unchanged when they are equal; it never moves past the target when the
gap is at least 0.5, but when `0 < gap < 0.5` the fixed step overshoots
(by less than 0.5).  Starting at 20 with target 22: the first step yields
20.5, the fourth step reaches exactly 22, and every further step leaves
the temperature at 22. -/
theorem update_current_temp_spec (t : Thermostat) (n : ℕ) :
    (t.temperature = t.target_temp → (t.update_current_temp).temperature = t.temperature) ∧
    (t.temperature < t.target_temp →
      (t.update_current_temp).temperature = t.temperature + 1/2) ∧
    (t.target_temp < t.temperature →
      (t.update_current_temp).temperature = t.temperature - 1/2) ∧
    (t.temperature + 1/2 ≤ t.target_temp →
      (t.update_current_temp).temperature ≤ t.target_temp) ∧
    (t.target_temp ≤ t.temperature - 1/2 →
      t.target_temp ≤ (t.update_current_temp).temperature) ∧
    ((c5Conv.update_current_temp).temperature = 41/2) ∧
    ((Thermostat.update_current_temp^[n + 4] c5Conv).temperature = 22) := by
  refine ⟨?_, ?_, ?_, ?_, ?_, ?_, ?_⟩
  · intro h; rw [update_current_temp_temperature, h]; simp
  · intro h; rw [update_current_temp_temperature, if_pos h]
  · intro h
    rw [update_current_temp_temperature, if_neg (by linarith), if_pos h]
  · intro h
    rw [update_current_temp_temperature, if_pos (by linarith)]
    linarith
  · intro h
    rcases lt_trichotomy t.temperature t.target_temp with hlt | heq | hgt
    · linarith
    · rw [update_current_temp_temperature, heq]; simp
    · rw [update_current_temp_temperature, if_neg (by linarith), if_pos hgt]
      linarith
  · exact c5Conv_step_temperature
  · rw [Function.iterate_add_apply]
    rw [update_current_temp_iter_fixed _ (by rw [c5Conv_iter4.1, c5Conv_iter4.2]),
      c5Conv_iter4.1]

theorem update_current_temp_spec_witness :
    c5Conv.temperature < c5Conv.target_temp ∧
    (c5Conv.update_current_temp).temperature = c5Conv.temperature + 1/2 :=
  ⟨by norm_num [c5Conv], (update_current_temp_spec c5Conv 0).2.1 (by norm_num [c5Conv])⟩

lemma mem_enabledCameras (devices : List Device) (c : SecurityCamera) :
    c ∈ enabledCameras devices ↔ Device.camera c ∈ devices ∧ c.status = true := by
  simp only [enabledCameras, List.mem_filterMap]
  constructor
  · rintro ⟨d, hd, he⟩
    cases d with
    | camera c2 =>
        simp only [] at he
        by_cases h : c2.status = true
        · rw [if_pos h] at he
          injection he with h2
          subst h2
          exact ⟨hd, h⟩
        · rw [if_neg h] at he
          exact absurd he (by simp)
    | light a => exact absurd he (by simp)
    | thermostat a => exact absurd he (by simp)
    | door a => exact absurd he (by simp)
    | window a => exact absurd he (by simp)
    | fan a => exact absurd he (by simp)
  · rintro ⟨hd, hs⟩
    exact ⟨Device.camera c, hd, by simp [hs]⟩

lemma securityCondition_iff (devices : List Device) :
    securityCondition devices = true ↔
      ((∃ c : SecurityCamera, Device.camera c ∈ devices ∧ c.status = true) ∧
       (∀ c : SecurityCamera, Device.camera c ∈ devices → c.status = true →
          c.motion_detected = false)) := by
  constructor
  · intro hcond
    unfold securityCondition at hcond
    by_cases h : (enabledCameras devices).isEmpty = true
    · rw [if_pos h] at hcond
      exact absurd hcond (by simp)
    · rw [if_neg h] at hcond
      have hne : enabledCameras devices ≠ [] := by
        simpa [List.isEmpty_iff] using h
      obtain ⟨c0, hc0⟩ := List.exists_mem_of_ne_nil _ hne
      refine ⟨⟨c0, ((mem_enabledCameras devices c0).1 hc0).1,
        ((mem_enabledCameras devices c0).1 hc0).2⟩, ?_⟩
      intro c hc hs
      have hmem : c ∈ enabledCameras devices := (mem_enabledCameras devices c).2 ⟨hc, hs⟩
      have := List.all_eq_true.1 hcond c hmem
      simpa using this
  · rintro ⟨⟨c0, hc0, hs0⟩, hall⟩
    unfold securityCondition
    have hmem : c0 ∈ enabledCameras devices := (mem_enabledCameras devices c0).2 ⟨hc0, hs0⟩
    have hne : ¬ (enabledCameras devices).isEmpty = true := by
      simp only [List.isEmpty_iff]
      exact List.ne_nil_of_mem hmem
    rw [if_neg hne]
    refine List.all_eq_true.2 ?_
    intro c hc
    have := hall c ((mem_enabledCameras devices c).1 hc).1 ((mem_enabledCameras devices c).1 hc).2
    simpa using this

/-- C6: the Auto Lock condition and the Energy Saving condition are the
same boolean function of the registry, and both hold exactly when at
least one camera with its on flag set exists and no such camera reports
motion. -/
theorem security_energy_condition_spec (devices : List Device) :
    securityCondition devices = energySavingCondition devices ∧
    (securityCondition devices = true ↔
      ((∃ c : SecurityCamera, Device.camera c ∈ devices ∧ c.status = true) ∧
       (∀ c : SecurityCamera, Device.camera c ∈ devices → c.status = true →
          c.motion_detected = false))) :=
  ⟨rfl, securityCondition_iff devices⟩

def c7Cam : SecurityCamera :=
  { device_id := "cam7", status := true, room := "Front Door", color := "#cccccc",
    motion_detected := false, recording := false, battery_level := 100 }

/-- A door as produced by `SmartDoor.__init__` followed by `toggle_lock`:
`locked` is `False` but the inherited on flag `status` is still `False`. -/
def c7Door : SmartDoor :=
  { device_id := "door7", status := false, room := "Front Door", color := "#cccccc",
    locked := false, door_open := false }

/-- C7 counterexample: a registry with one camera that is on and reports
no motion and one unlocked door; the Auto Lock rule fires but its action
only assigns `locked := True` to doors whose `status` is on, and this
door's `status` is `False` (the constructor default), so the registry —
and in particular the door's `locked` flag — is unchanged. -/
theorem auto_lock_counterexample :
    c7Cam.status = true ∧ c7Cam.motion_detected = false ∧ c7Door.locked = false ∧
    (create_security_rule.apply [Device.camera c7Cam, Device.door c7Door] 5).2.2
      = [Device.camera c7Cam, Device.door c7Door] := by
  decide

/-- C7 (amended): for a registry of one camera whose on flag is true and
whose motion flag is false, and one door whose on flag is true and whose
`locked` flag is false, applying the Auto Lock rule sets that door's
`locked` flag to true (the action locks only doors whose on flag is
true). -/
theorem auto_lock_spec (cam : SecurityCamera) (dr : SmartDoor) (now : ℚ)
    (hc : cam.status = true) (hm : cam.motion_detected = false)
    (hd : dr.status = true) (_hl : dr.locked = false) :
    (create_security_rule.apply [Device.camera cam, Device.door dr] now).2.2
      = [Device.camera cam, Device.door { dr with locked := true }] := by
  simp [create_security_rule, AutomationRule.apply, securityCondition, enabledCameras,
    securityAction, hc, hm, hd]

def c7CamW : SecurityCamera :=
  { device_id := "cam7b", status := true, room := "Front Door", color := "#cccccc",
    motion_detected := false, recording := false, battery_level := 100 }

def c7DoorW : SmartDoor :=
  { device_id := "door7b", status := true, room := "Front Door", color := "#cccccc",
    locked := false, door_open := false }

theorem auto_lock_spec_witness :
    c7CamW.status = true ∧ c7CamW.motion_detected = false ∧ c7DoorW.status = true ∧
    c7DoorW.locked = false ∧
    (create_security_rule.apply [Device.camera c7CamW, Device.door c7DoorW] 5).2.2
      = [Device.camera c7CamW, Device.door { c7DoorW with locked := true }] :=
  ⟨rfl, rfl, rfl, rfl, auto_lock_spec c7CamW c7DoorW 5 rfl rfl rfl rfl⟩

/-- A call to one of the two `SmartWindow` percentage mutators. -/
inductive WindowOp where
  | setOpen (p : ℤ)
  | setBlinds (p : ℤ)

/-- Run a sequence of percentage mutator calls left to right. -/
def runWindowOps (w : SmartWindow) : List WindowOp → SmartWindow
  | [] => w
  | WindowOp.setOpen p :: ops => runWindowOps (w.set_open_percentage p) ops
  | WindowOp.setBlinds p :: ops => runWindowOps (w.set_blinds_percentage p) ops

/-- The derived-field invariant claimed for the window:
`light_level = open% × (100 − blinds%) / 100` over the stored values. -/
def lightLevelConsistent (w : SmartWindow) : Prop :=
  w.light_level = ((w.open_percentage : ℚ) * (100 - (w.blinds_percentage : ℚ))) / 100

/-- A window as produced by `SmartWindow.__init__`: `open_percentage = 0`,
`blinds_percentage = 0`, `light_level = 50`. -/
def c8Window : SmartWindow :=
  { device_id := "win8", status := false, room := "Living Room", color := "#cccccc",
    open_percentage := 0, blinds_percentage := 0, light_level := 50 }

/-- C8 counterexample: after the single-call sequence
`set_open_percentage(80)` on a fresh window, the stored `light_level` is
still the constructor value 50, not `80 × (100 − 0) / 100 = 80`:
`set_open_percentage` never recomputes the derived field. -/
theorem window_light_level_counterexample :
    (c8Window.set_open_percentage 80).open_percentage = 80 ∧
    (c8Window.set_open_percentage 80).blinds_percentage = 0 ∧
    (c8Window.set_open_percentage 80).light_level = 50 ∧
    ¬ lightLevelConsistent (c8Window.set_open_percentage 80) := by
  refine ⟨rfl, rfl, rfl, ?_⟩
  unfold lightLevelConsistent
  norm_num [c8Window, SmartWindow.set_open_percentage]

lemma set_blinds_percentage_consistent (w : SmartWindow) (p : ℤ) :
    lightLevelConsistent (w.set_blinds_percentage p) := by
  unfold lightLevelConsistent SmartWindow.set_blinds_percentage
    SmartWindow.calculate_light_level
  rfl

lemma set_open_percentage_light_level (w : SmartWindow) (p : ℤ) :
    (w.set_open_percentage p).light_level = w.light_level := by
  unfold SmartWindow.set_open_percentage
  dsimp only
  split_ifs <;> rfl

lemma runWindowOps_append_setBlinds (ops : List WindowOp) (w : SmartWindow) (p : ℤ) :
    runWindowOps w (ops ++ [WindowOp.setBlinds p])
      = (runWindowOps w ops).set_blinds_percentage p := by
  induction ops generalizing w with
  | nil => rfl
  | cons o os ih => cases o <;> simp [runWindowOps, ih]

/-- C8 (amended): only `set_blinds_percentage` recomputes the derived
`light_level`; `set_open_percentage` leaves it untouched.  Hence the
invariant `light_level = open% × (100 − blinds%) / 100` holds after any
call sequence whose last call is `set_blinds_percentage`, while a
sequence ending in `set_open_percentage` (or the empty sequence on a
fresh window, whose initial `light_level` is 50) can leave the stored
value stale. -/
theorem window_light_level_spec (w : SmartWindow) (ops : List WindowOp) (p q : ℤ) :
    lightLevelConsistent (w.set_blinds_percentage p) ∧
    (w.set_open_percentage q).light_level = w.light_level ∧
    lightLevelConsistent (runWindowOps w (ops ++ [WindowOp.setBlinds p])) := by
  refine ⟨set_blinds_percentage_consistent w p, set_open_percentage_light_level w q, ?_⟩
  rw [runWindowOps_append_setBlinds]
  exact set_blinds_percentage_consistent _ p

def c9Window : SmartWindow :=
  { device_id := "win9", status := false, room := "Living Room", color := "#cccccc",
    open_percentage := 0, blinds_percentage := 0, light_level := 50 }

/-- C9 counterexample: a `SmartWindow` whose on flag is false does not
produce the fixed "OFF" summary — its `get_details` returns a "CLOSED"
summary instead. -/
theorem off_details_counterexample :
    c9Window.status = false ∧
    c9Window.get_details = "win9 (Living Room): CLOSED" ∧
    c9Window.get_details ≠ "win9 (Living Room): OFF" := by
  refine ⟨rfl, rfl, ?_⟩
  decide

/-- C9 (amended): for Light, Thermostat, Camera, Door and Fan, whenever
the on flag is false `get_details` returns the fixed
`"<id> (<room>): OFF"` summary regardless of every other attribute; the
Window variant instead returns the fixed `"<id> (<room>): CLOSED"`
summary when its on flag is false. -/
theorem off_details_spec (l : SmartLight) (t : Thermostat) (c : SecurityCamera)
    (d : SmartDoor) (w : SmartWindow) (f : SmartFan) :
    (l.status = false → l.get_details = l.device_id ++ " (" ++ l.room ++ "): OFF") ∧
    (t.status = false → t.get_details = t.device_id ++ " (" ++ t.room ++ "): OFF") ∧
    (c.status = false → c.get_details = c.device_id ++ " (" ++ c.room ++ "): OFF") ∧
    (d.status = false → d.get_details = d.device_id ++ " (" ++ d.room ++ "): OFF") ∧
    (f.status = false → f.get_details = f.device_id ++ " (" ++ f.room ++ "): OFF") ∧
    (w.status = false → w.get_details = w.device_id ++ " (" ++ w.room ++ "): CLOSED") := by
  refine ⟨?_, ?_, ?_, ?_, ?_, ?_⟩ <;> intro h
  · simp [SmartLight.get_details, h]
  · simp [Thermostat.get_details, h]
  · simp [SecurityCamera.get_details, h]
  · simp [SmartDoor.get_details, h]
  · simp [SmartFan.get_details, h]
  · simp [SmartWindow.get_details, h]

def c9Light : SmartLight :=
  { device_id := "light9", status := false, room := "Living Room", color := "#cccccc",
    brightness := 75, color_temp := 4000 }

def c9Therm : Thermostat :=
  { device_id := "thermo9", status := false, room := "Living Room", color := "#E1F5FE",
    temperature := 20, target_temp := 20, mode := "heat", humidity := 50 }

def c9Cam : SecurityCamera :=
  { device_id := "cam9", status := false, room := "Front Door", color := "#cccccc",
    motion_detected := true, recording := false, battery_level := 100 }

def c9Door : SmartDoor :=
  { device_id := "door9", status := false, room := "Front Door", color := "#cccccc",
    locked := true, door_open := false }

def c9Fan : SmartFan :=
  { device_id := "fan9", status := false, room := "Living Room", color := "#cccccc",
    speed := 2, oscillating := true, timer := 10 }

theorem off_details_spec_witness :
    c9Light.status = false ∧
    c9Light.get_details = c9Light.device_id ++ " (" ++ c9Light.room ++ "): OFF" :=
  ⟨rfl, (off_details_spec c9Light c9Therm c9Cam c9Door c9Window c9Fan).1 rfl⟩
